import Mathlib

/-!
# frontend/app/vue.config.js

A verification development for the Vue CLI configuration module
`frontend/app/vue.config.js`.  The module requires `webpack`, evaluates one
object literal and assigns it to `module.exports`; besides the module it
requires, the only input it reads is the process environment, through
`process.env.VUE_APP_API_URL`.

The embedding keeps JavaScript values as an untyped value tree and runs the
module as a step on the state of the Node process: its environment, the modules
that can be resolved, and the cache of modules already required.  The steps
that can throw are fallible: `require` of a module that does not resolve, a
property read on `undefined`, and `new` on a value that is not a constructor.
The operator `||` goes through the language's truthiness test.
-/

namespace VueConfig

/-! ## JavaScript values -/

/-- JavaScript values occurring in the module: `undefined`, booleans, strings,
object literals (own properties in source order), array literals, the instance
built by `new webpack.DefinePlugin(definitions)`, which stores its argument as
`definitions`, and the constructor function `DefinePlugin` itself. -/
inductive JSVal where
  | undefined : JSVal
  | bool : Bool → JSVal
  | str : String → JSVal
  | obj : List (String × JSVal) → JSVal
  | arr : List JSVal → JSVal
  | definePlugin : JSVal → JSVal
  | definePluginClass : JSVal

/-- Errors raised while evaluating the module: a `TypeError`, the error of
`require` for a module that does not resolve, and a marker for operations
outside the modelled fragment. -/
inductive JSError where
  | typeError : String → JSError
  | moduleNotFound : String → JSError
  | notModelled : String → JSError

/-- The process environment: the `NAME=value` entries of the process, in
order.  Values are always strings; a name that has no entry is unset. -/
abbrev Env := List (String × String)

/-- Value of the environment variable `name`, `none` when it is unset. -/
def getenv (env : Env) (name : String) : Option String :=
  env.lookup name

/-- The object `process.env`: every environment variable is a string-valued
property. -/
def processEnv (env : Env) : JSVal :=
  .obj (env.map fun kv => (kv.1, JSVal.str kv.2))

/-- The global `process`, reduced to its `env` property. -/
def processGlobal (env : Env) : JSVal :=
  .obj [("env", processEnv env)]

/-- Property read `base.key` on own properties.  Reading from `undefined`
throws a `TypeError`; an object without the property yields `undefined`.
Reads on other kinds of value are not used by the module and are reported as
not modelled. -/
def getMember (base : JSVal) (key : String) : Except JSError JSVal :=
  match base with
  | .undefined => .error (.typeError ("Cannot read properties of undefined (reading " ++ key ++ ")"))
  | .obj props => .ok ((props.lookup key).getD .undefined)
  | _ => .error (.notModelled key)

/-- The abstract operation ToBoolean: `undefined`, `false` and the empty string
are falsy, every other value is truthy. -/
def toBoolean : JSVal → Bool
  | .undefined => false
  | .bool b => b
  | .str s => !(s == "")
  | .obj _ => true
  | .arr _ => true
  | .definePlugin _ => true
  | .definePluginClass => true

/-- The operator `a || b` with an effect-free right operand: the left operand
when it is truthy, the right operand otherwise. -/
def logicalOr (a b : JSVal) : JSVal :=
  if toBoolean a then a else b

/-- The call `JSON.stringify(b)` for a boolean `b`: the JSON text of `b`. -/
def jsonStringify (b : Bool) : String :=
  if b then "true" else "false"

/-- The expression `new ctor(arg)`.  The constructor `DefinePlugin` stores its
argument; a value that is not a constructor throws a `TypeError`. -/
def construct (ctor arg : JSVal) : Except JSError JSVal :=
  match ctor with
  | .definePluginClass => .ok (.definePlugin arg)
  | _ => .error (.typeError "is not a constructor")

/-- The expression `process.env[name]`: two property reads starting from the
global `process`. -/
def readEnvVar (env : Env) (name : String) : Except JSError JSVal := do
  let processDotEnv ← getMember (processGlobal env) "env"
  getMember processDotEnv name

/-! ## The process and `require` -/

/-- State of the Node process as far as a load of the module touches it: the
environment, the exports of the modules that resolve from the project, and the
cache of modules required so far. -/
structure Runtime where
  env : Env
  installed : List (String × JSVal)
  cache : List (String × JSVal)

/-- The call `require(name)`: a module already in the cache is returned from
there; otherwise the module is resolved, entered into the cache and returned;
a module that does not resolve throws. -/
def requireModule (rt : Runtime) (name : String) : Except JSError (JSVal × Runtime) :=
  match rt.cache.lookup name with
  | some cached => .ok (cached, rt)
  | none =>
    match rt.installed.lookup name with
    | some found => .ok (found, Runtime.mk rt.env rt.installed ((name, found) :: rt.cache))
    | none => .error (.moduleNotFound name)

/-- Exports of the package `webpack`, reduced to the constructor used here. -/
def webpackModule : JSVal :=
  .obj [("DefinePlugin", .definePluginClass)]

/-- A process that has just started in a project where `webpack` is installed:
the given environment, nothing required yet. -/
def freshRuntime (env : Env) : Runtime :=
  Runtime.mk env [("webpack", webpackModule)] []

/-! ## The module -/

/-- The object literal passed to `new webpack.DefinePlugin(...)`. -/
def defineFlags : JSVal :=
  .obj [("__VUE_PROD_HYDRATION_MISMATCH_DETAILS__", .str (jsonStringify true))]

/-- The object literal assigned to `module.exports`, given the plugin instance
built by `new webpack.DefinePlugin(...)` and the value read from
`process.env.VUE_APP_API_URL`. -/
def configRecord (plugin apiUrl : JSVal) : JSVal :=
  .obj [
    ("lintOnSave", .bool false),
    ("configureWebpack", .obj [
      ("plugins", .arr [plugin])]),
    ("devServer", .obj [
      ("allowedHosts", .str "all"),
      ("proxy", .obj [
        ("/api", .obj [
          ("target", logicalOr apiUrl (.str "http://localhost:8000")),
          ("changeOrigin", .bool true),
          ("secure", .bool false)])]),
      ("client", .obj [
        ("webSocketURL",
          .str "wss://5543-2405-201-3004-d09d-e838-3470-27b1-6b78.ngrok-free.app.ngrok.io/ws")])])]

/-- One load of the configuration, as a step on the process: `webpack` is
required, the plugin is constructed from `webpack.DefinePlugin`, the
environment variable is read, and the record for `module.exports` is built.
The result is the record with the process state after the load, or the error
thrown on the way. -/
def loadConfig (rt : Runtime) : Except JSError (JSVal × Runtime) := do
  let required ← requireModule rt "webpack"
  let ctor ← getMember required.1 "DefinePlugin"
  let plugin ← construct ctor defineFlags
  let apiUrl ← readEnvVar required.2.env "VUE_APP_API_URL"
  return (configRecord plugin apiUrl, required.2)

/-- Value of `module.exports` when a fresh process with the environment `env`
loads the module in a project where `webpack` is installed, or the error
thrown on the way. -/
def moduleExports (env : Env) : Except JSError JSVal :=
  (loadConfig (freshRuntime env)).map Prod.fst

/-- Value that the read `process.env[name]` produces: the string of the
variable, `undefined` when it is unset. -/
def envRead (env : Env) (name : String) : JSVal :=
  match getenv env name with
  | some s => .str s
  | none => .undefined

/-! ## Observing a record -/

/-- Own property `key` of an object literal; `undefined` when the value is not
an object or has no such property. -/
def JSVal.prop (v : JSVal) (key : String) : JSVal :=
  match v with
  | .obj props => (props.lookup key).getD .undefined
  | _ => .undefined

/-- The value reached from `v` by following the property names of `path`. -/
def JSVal.get (v : JSVal) : List String → JSVal
  | [] => v
  | key :: rest => (v.prop key).get rest

/-- Names of the own properties of an object literal, in order. -/
def JSVal.keys : JSVal → List String
  | .obj props => props.map Prod.fst
  | _ => []

/-- Replace the value of the first property named `key` by its image under
`f`. -/
def updateProp (key : String) (f : JSVal → JSVal) :
    List (String × JSVal) → List (String × JSVal)
  | [] => []
  | (k, v) :: rest =>
    if k = key then (k, f v) :: rest else (k, v) :: updateProp key f rest

/-- The value `v` with the value at `path` replaced by `w`; `v` itself when the
path does not lead through object literals. -/
def JSVal.set (v : JSVal) (path : List String) (w : JSVal) : JSVal :=
  match path, v with
  | [], _ => w
  | key :: rest, .obj props => .obj (updateProp key (fun x => x.set rest w) props)
  | _ :: _, other => other

/-- Path of the proxy target inside the configuration record. -/
def targetPath : List String := ["devServer", "proxy", "/api", "target"]

/-- The field `devServer.proxy['/api'].target` of a configuration record. -/
def proxyTarget (cfg : JSVal) : JSVal := cfg.get targetPath

/-! ## Evaluation lemmas -/

theorem lookup_processEnv (env : Env) (name : String) :
    ((env.map fun kv => (kv.1, JSVal.str kv.2)).lookup name).getD JSVal.undefined
      = envRead env name := by
  induction env with
  | nil => rfl
  | cons kv rest ih =>
    obtain ⟨k, v⟩ := kv
    by_cases hk : name = k
    · subst hk
      simp [envRead, getenv, List.lookup]
    · have hb : (name == k) = false := by simpa using hk
      simpa [envRead, getenv, List.lookup, hb] using ih

theorem readEnvVar_eq (env : Env) (name : String) :
    readEnvVar env name = Except.ok (envRead env name) := by
  have h := lookup_processEnv env name
  simp only [readEnvVar, processGlobal, processEnv, getMember, List.lookup] at *
  rw [show ("env" == "env") = true from by decide]
  simp only [Option.getD, bind, Except.bind]
  rw [← h]
  rfl

theorem requireModule_env (rt rt1 : Runtime) (name : String) (m : JSVal)
    (h : requireModule rt name = Except.ok (m, rt1)) : rt1.env = rt.env := by
  unfold requireModule at h
  cases hc : rt.cache.lookup name with
  | some cached =>
    rw [hc] at h
    injection h with h
    injection h with _ h2
    rw [← h2]
  | none =>
    rw [hc] at h
    cases hi : rt.installed.lookup name with
    | some found =>
      rw [hi] at h
      injection h with h
      injection h with _ h2
      rw [← h2]
    | none =>
      rw [hi] at h
      cases h

theorem requireModule_again (rt rt1 : Runtime) (name : String) (m : JSVal)
    (h : requireModule rt name = Except.ok (m, rt1)) :
    requireModule rt1 name = Except.ok (m, rt1) := by
  unfold requireModule at h
  cases hc : rt.cache.lookup name with
  | some cached =>
    rw [hc] at h
    injection h with h
    injection h with h1 h2
    subst h1 h2
    simp only [requireModule, hc]
  | none =>
    rw [hc] at h
    cases hi : rt.installed.lookup name with
    | some found =>
      rw [hi] at h
      injection h with h
      injection h with h1 h2
      subst h1 h2
      simp [requireModule, List.lookup]
    | none =>
      rw [hi] at h
      cases h

theorem construct_ok (ctor arg plugin : JSVal)
    (h : construct ctor arg = Except.ok plugin) :
    ctor = JSVal.definePluginClass ∧ plugin = JSVal.definePlugin arg := by
  cases ctor <;> simp [construct] at h
  exact ⟨rfl, h.symm⟩

theorem loadConfig_of_resolved (rt rt1 : Runtime) (wp : JSVal)
    (hreq : requireModule rt "webpack" = Except.ok (wp, rt1))
    (hctor : getMember wp "DefinePlugin" = Except.ok JSVal.definePluginClass) :
    loadConfig rt = Except.ok
      (configRecord (JSVal.definePlugin defineFlags) (envRead rt1.env "VUE_APP_API_URL"),
        rt1) := by
  simp only [loadConfig, hreq, hctor, construct, readEnvVar_eq, bind, Except.bind,
    pure, Except.pure]

theorem loadConfig_ok (rt rt1 : Runtime) (cfg : JSVal)
    (h : loadConfig rt = Except.ok (cfg, rt1)) :
    ∃ wp, requireModule rt "webpack" = Except.ok (wp, rt1)
      ∧ getMember wp "DefinePlugin" = Except.ok JSVal.definePluginClass
      ∧ cfg = configRecord (JSVal.definePlugin defineFlags)
          (envRead rt1.env "VUE_APP_API_URL") := by
  unfold loadConfig at h
  cases hreq : requireModule rt "webpack" with
  | error e =>
    rw [hreq] at h
    cases h
  | ok required =>
    obtain ⟨wp, rt2⟩ := required
    rw [hreq] at h
    simp only [bind, Except.bind] at h
    cases hctor : getMember wp "DefinePlugin" with
    | error e =>
      rw [hctor] at h
      cases h
    | ok ctor =>
      rw [hctor] at h
      simp only at h
      cases hplugin : construct ctor defineFlags with
      | error e =>
        rw [hplugin] at h
        cases h
      | ok plugin =>
        rw [hplugin] at h
        obtain ⟨hc, hp⟩ := construct_ok ctor defineFlags plugin hplugin
        subst hc hp
        simp only [readEnvVar_eq, pure, Except.pure] at h
        injection h with h
        injection h with h1 h2
        subst h2
        exact ⟨wp, rfl, hctor, h1.symm⟩

theorem moduleExports_eq (env : Env) :
    moduleExports env
      = Except.ok (configRecord (JSVal.definePlugin defineFlags)
          (envRead env "VUE_APP_API_URL")) := by
  have h := loadConfig_of_resolved (freshRuntime env)
    (Runtime.mk env [("webpack", webpackModule)] [("webpack", webpackModule)])
    webpackModule rfl rfl
  simp only [moduleExports, h]
  rfl

theorem proxyTarget_configRecord (plugin apiUrl : JSVal) :
    proxyTarget (configRecord plugin apiUrl)
      = logicalOr apiUrl (JSVal.str "http://localhost:8000") := by
  simp [proxyTarget, targetPath, configRecord, JSVal.get, JSVal.prop, List.lookup]

/-! ## The proxy target -/

/-- C1: in every process environment where `VUE_APP_API_URL` is unset, the
module loads and the field `devServer.proxy['/api'].target` of the exported
record is the string `http://localhost:8000`. -/
theorem target_default_when_unset (env : Env)
    (h : getenv env "VUE_APP_API_URL" = none) :
    (moduleExports env).map proxyTarget
      = Except.ok (JSVal.str "http://localhost:8000") := by
  rw [moduleExports_eq]
  simp only [Except.map, proxyTarget_configRecord, envRead, h]
  rfl

theorem target_default_when_unset_witness :
    getenv [("NODE_ENV", "development")] "VUE_APP_API_URL" = none
      ∧ (moduleExports [("NODE_ENV", "development")]).map proxyTarget
          = Except.ok (JSVal.str "http://localhost:8000") :=
  ⟨by decide, target_default_when_unset [("NODE_ENV", "development")] (by decide)⟩

/-- C2: when `VUE_APP_API_URL` is set to a non-empty string `S`, the module
loads and `devServer.proxy['/api'].target` is the string `S` itself, unchanged,
whatever `S` looks like. -/
theorem target_is_override_when_nonempty (env : Env) (S : String)
    (hS : S ≠ "") (h : getenv env "VUE_APP_API_URL" = some S) :
    (moduleExports env).map proxyTarget = Except.ok (JSVal.str S) := by
  rw [moduleExports_eq]
  simp only [Except.map, proxyTarget_configRecord, envRead, h]
  simp [logicalOr, toBoolean, hS]

theorem target_is_override_when_nonempty_witness :
    " not a url:// 0 " ≠ ""
      ∧ getenv [("VUE_APP_API_URL", " not a url:// 0 ")] "VUE_APP_API_URL"
          = some " not a url:// 0 "
      ∧ (moduleExports [("VUE_APP_API_URL", " not a url:// 0 ")]).map proxyTarget
          = Except.ok (JSVal.str " not a url:// 0 ") :=
  ⟨by decide, by decide,
    target_is_override_when_nonempty [("VUE_APP_API_URL", " not a url:// 0 ")]
      " not a url:// 0 " (by decide) (by decide)⟩

/-- C3: when `VUE_APP_API_URL` is set to the empty string, the module loads and
`devServer.proxy['/api'].target` is the default `http://localhost:8000`, as for
an unset variable; the empty string is not passed through. -/
theorem target_default_when_empty (env : Env)
    (h : getenv env "VUE_APP_API_URL" = some "") :
    (moduleExports env).map proxyTarget
      = Except.ok (JSVal.str "http://localhost:8000")
    ∧ (moduleExports env).map proxyTarget ≠ Except.ok (JSVal.str "") := by
  rw [moduleExports_eq]
  simp only [Except.map, proxyTarget_configRecord, envRead, h]
  refine ⟨rfl, ?_⟩
  intro hcontra
  have h2 : logicalOr (JSVal.str "") (JSVal.str "http://localhost:8000")
      = JSVal.str "" := by
    injection hcontra
  have h3 : logicalOr (JSVal.str "") (JSVal.str "http://localhost:8000")
      = JSVal.str "http://localhost:8000" := rfl
  rw [h3] at h2
  injection h2 with h4
  exact absurd h4 (by decide)

theorem target_default_when_empty_witness :
    getenv [("VUE_APP_API_URL", "")] "VUE_APP_API_URL" = some ""
      ∧ (moduleExports [("VUE_APP_API_URL", "")]).map proxyTarget
          = Except.ok (JSVal.str "http://localhost:8000")
      ∧ (moduleExports [("VUE_APP_API_URL", "")]).map proxyTarget
          ≠ Except.ok (JSVal.str "") :=
  ⟨by decide, target_default_when_empty [("VUE_APP_API_URL", "")] (by decide)⟩

/-! ## Failure of the load, and loading twice -/

/-- C4, as stated, fails: in a project where `webpack` does not resolve, the
load throws at `require('webpack')` and returns no record, here with
`VUE_APP_API_URL` unset. -/
theorem load_fails_without_webpack :
    loadConfig (Runtime.mk [] [] []) = Except.error (JSError.moduleNotFound "webpack")
      ∧ ¬ ∃ cfg rt1, loadConfig (Runtime.mk [] [] []) = Except.ok (cfg, rt1) := by
  have h : loadConfig (Runtime.mk [] [] [])
      = Except.error (JSError.moduleNotFound "webpack") := rfl
  refine ⟨h, ?_⟩
  rintro ⟨cfg, rt1, hok⟩
  rw [h] at hok
  cases hok

/-- C4, amended: whenever `require('webpack')` resolves, from the cache or from
the project, to a module whose `DefinePlugin` is the constructor, the load
succeeds for every environment, whatever it holds for `VUE_APP_API_URL`: it
returns an object and throws no error. -/
theorem load_succeeds_when_webpack_resolves
    (env : Env) (installed cache : List (String × JSVal)) (wp : JSVal) (rt1 : Runtime)
    (hreq : requireModule (Runtime.mk env installed cache) "webpack" = Except.ok (wp, rt1))
    (hctor : getMember wp "DefinePlugin" = Except.ok JSVal.definePluginClass) :
    (∃ props, loadConfig (Runtime.mk env installed cache) = Except.ok (JSVal.obj props, rt1))
      ∧ ∀ e, loadConfig (Runtime.mk env installed cache) ≠ Except.error e := by
  rw [loadConfig_of_resolved _ rt1 wp hreq hctor]
  refine ⟨⟨_, rfl⟩, ?_⟩
  intro e he
  cases he

theorem load_succeeds_when_webpack_resolves_witness :
    requireModule (Runtime.mk [("VUE_APP_API_URL", "")] [("webpack", webpackModule)] [])
        "webpack"
      = Except.ok (webpackModule,
          Runtime.mk [("VUE_APP_API_URL", "")] [("webpack", webpackModule)]
            [("webpack", webpackModule)])
    ∧ getMember webpackModule "DefinePlugin" = Except.ok JSVal.definePluginClass
    ∧ (∃ props,
        loadConfig (Runtime.mk [("VUE_APP_API_URL", "")] [("webpack", webpackModule)] [])
          = Except.ok (JSVal.obj props,
              Runtime.mk [("VUE_APP_API_URL", "")] [("webpack", webpackModule)]
                [("webpack", webpackModule)]))
    ∧ ∀ e, loadConfig (Runtime.mk [("VUE_APP_API_URL", "")] [("webpack", webpackModule)] [])
        ≠ Except.error e :=
  ⟨rfl, rfl,
    load_succeeds_when_webpack_resolves [("VUE_APP_API_URL", "")]
      [("webpack", webpackModule)] [] webpackModule
      (Runtime.mk [("VUE_APP_API_URL", "")] [("webpack", webpackModule)]
        [("webpack", webpackModule)]) rfl rfl⟩

/-- C5: when a load returns a record, a second load from the process state the
first one left behind succeeds and returns the same record.  The first load may
have changed the state (it enters `webpack` into the module cache) but not the
environment; the second load changes nothing further.  The record is the
object of the source, with `lintOnSave` false, the one define plugin, and the
proxy target resolved from the environment. -/
theorem load_twice_same_record (rt rt1 : Runtime) (cfg : JSVal)
    (h : loadConfig rt = Except.ok (cfg, rt1)) :
    loadConfig rt1 = Except.ok (cfg, rt1)
      ∧ rt1.env = rt.env
      ∧ cfg.get ["lintOnSave"] = JSVal.bool false
      ∧ cfg.get ["configureWebpack", "plugins"]
          = JSVal.arr [JSVal.definePlugin (JSVal.obj
              [("__VUE_PROD_HYDRATION_MISMATCH_DETAILS__", JSVal.str "true")])]
      ∧ proxyTarget cfg
          = logicalOr (envRead rt.env "VUE_APP_API_URL") (JSVal.str "http://localhost:8000") := by
  obtain ⟨wp, hreq, hctor, hcfg⟩ := loadConfig_ok rt rt1 cfg h
  have henv := requireModule_env rt rt1 "webpack" wp hreq
  have hagain := requireModule_again rt rt1 "webpack" wp hreq
  subst hcfg
  refine ⟨loadConfig_of_resolved rt1 rt1 wp hagain hctor, henv, ?_, ?_, ?_⟩
  · simp [configRecord, JSVal.get, JSVal.prop, List.lookup]
  · simp [configRecord, defineFlags, JSVal.get, JSVal.prop, List.lookup, jsonStringify]
  · rw [proxyTarget_configRecord, henv]

theorem load_twice_same_record_witness :
    loadConfig (freshRuntime [("VUE_APP_API_URL", "http://10.0.0.1:9000")])
        = Except.ok
            (configRecord (JSVal.definePlugin defineFlags) (JSVal.str "http://10.0.0.1:9000"),
              Runtime.mk [("VUE_APP_API_URL", "http://10.0.0.1:9000")]
                [("webpack", webpackModule)] [("webpack", webpackModule)])
    ∧ loadConfig (Runtime.mk [("VUE_APP_API_URL", "http://10.0.0.1:9000")]
          [("webpack", webpackModule)] [("webpack", webpackModule)])
        = Except.ok
            (configRecord (JSVal.definePlugin defineFlags) (JSVal.str "http://10.0.0.1:9000"),
              Runtime.mk [("VUE_APP_API_URL", "http://10.0.0.1:9000")]
                [("webpack", webpackModule)] [("webpack", webpackModule)])
    ∧ (Runtime.mk [("VUE_APP_API_URL", "http://10.0.0.1:9000")]
          [("webpack", webpackModule)] [("webpack", webpackModule)]).env
        = (freshRuntime [("VUE_APP_API_URL", "http://10.0.0.1:9000")]).env
    ∧ (configRecord (JSVal.definePlugin defineFlags)
          (JSVal.str "http://10.0.0.1:9000")).get ["lintOnSave"] = JSVal.bool false
    ∧ (configRecord (JSVal.definePlugin defineFlags)
          (JSVal.str "http://10.0.0.1:9000")).get ["configureWebpack", "plugins"]
        = JSVal.arr [JSVal.definePlugin (JSVal.obj
            [("__VUE_PROD_HYDRATION_MISMATCH_DETAILS__", JSVal.str "true")])]
    ∧ proxyTarget (configRecord (JSVal.definePlugin defineFlags)
          (JSVal.str "http://10.0.0.1:9000"))
        = logicalOr
            (envRead (freshRuntime [("VUE_APP_API_URL", "http://10.0.0.1:9000")]).env
              "VUE_APP_API_URL")
            (JSVal.str "http://localhost:8000") :=
  ⟨rfl,
    load_twice_same_record (freshRuntime [("VUE_APP_API_URL", "http://10.0.0.1:9000")])
      (Runtime.mk [("VUE_APP_API_URL", "http://10.0.0.1:9000")]
        [("webpack", webpackModule)] [("webpack", webpackModule)])
      (configRecord (JSVal.definePlugin defineFlags) (JSVal.str "http://10.0.0.1:9000"))
      rfl⟩

/-! ## The fixed part of the record -/

/-- C6: for every environment, the plugin list holds one define plugin whose
mapping has the single flag `__VUE_PROD_HYDRATION_MISMATCH_DETAILS__`, with the
JSON text `true` as its value. -/
theorem define_flags_fixed (env : Env) :
    (moduleExports env).map (fun cfg => cfg.get ["configureWebpack", "plugins"])
      = Except.ok (JSVal.arr [JSVal.definePlugin (JSVal.obj
          [("__VUE_PROD_HYDRATION_MISMATCH_DETAILS__", JSVal.str "true")])]) := by
  rw [moduleExports_eq]
  simp [Except.map, configRecord, defineFlags, JSVal.get, JSVal.prop, List.lookup, jsonStringify]

/-- C7: for every environment, the field `lintOnSave` of the exported record is
`false`. -/
theorem lintOnSave_false (env : Env) :
    (moduleExports env).map (fun cfg => cfg.get ["lintOnSave"])
      = Except.ok (JSVal.bool false) := by
  rw [moduleExports_eq]
  simp [Except.map, configRecord, JSVal.get, JSVal.prop, List.lookup]

/-- C9: for every environment, the `devServer` section is the literal of the
source around some proxy target `t`: `allowedHosts` is `all`, the proxy mapping
has the single rule `/api` with `changeOrigin` true and `secure` false, and
`client.webSocketURL` is the fixed tunnel address. -/
theorem devServer_literal (env : Env) :
    ∃ t, (moduleExports env).map (fun cfg => cfg.get ["devServer"])
      = Except.ok (JSVal.obj [
          ("allowedHosts", JSVal.str "all"),
          ("proxy", JSVal.obj [
            ("/api", JSVal.obj [
              ("target", t),
              ("changeOrigin", JSVal.bool true),
              ("secure", JSVal.bool false)])]),
          ("client", JSVal.obj [
            ("webSocketURL", JSVal.str
              "wss://5543-2405-201-3004-d09d-e838-3470-27b1-6b78.ngrok-free.app.ngrok.io/ws")])]) := by
  refine ⟨logicalOr (envRead env "VUE_APP_API_URL") (JSVal.str "http://localhost:8000"), ?_⟩
  rw [moduleExports_eq]
  simp [Except.map, configRecord, JSVal.get, JSVal.prop, List.lookup]

/-! ## Dependence on the environment -/

/-- C8: for any two environments the module loads under both, and the two
records differ at most in `devServer.proxy['/api'].target`: putting the second
record's target into the first record gives the second record, and
`lintOnSave`, the webpack section with the define mapping, `allowedHosts`, the
names of the proxy rules, `changeOrigin`, `secure` and `client.webSocketURL`
are equal. -/
theorem only_target_varies (env1 env2 : Env) :
    ∃ cfg1 cfg2, moduleExports env1 = Except.ok cfg1
      ∧ moduleExports env2 = Except.ok cfg2
      ∧ cfg1.set targetPath (proxyTarget cfg2) = cfg2
      ∧ cfg1.get ["lintOnSave"] = cfg2.get ["lintOnSave"]
      ∧ cfg1.get ["configureWebpack"] = cfg2.get ["configureWebpack"]
      ∧ cfg1.get ["devServer", "allowedHosts"] = cfg2.get ["devServer", "allowedHosts"]
      ∧ (cfg1.get ["devServer", "proxy"]).keys = (cfg2.get ["devServer", "proxy"]).keys
      ∧ cfg1.get ["devServer", "proxy", "/api", "changeOrigin"]
          = cfg2.get ["devServer", "proxy", "/api", "changeOrigin"]
      ∧ cfg1.get ["devServer", "proxy", "/api", "secure"]
          = cfg2.get ["devServer", "proxy", "/api", "secure"]
      ∧ cfg1.get ["devServer", "client", "webSocketURL"]
          = cfg2.get ["devServer", "client", "webSocketURL"] := by
  refine ⟨_, _, moduleExports_eq env1, moduleExports_eq env2, ?_, ?_, ?_, ?_, ?_, ?_, ?_, ?_⟩
  · rw [proxyTarget_configRecord]
    simp [configRecord, targetPath, JSVal.set, updateProp]
  all_goals simp [configRecord, JSVal.get, JSVal.prop, JSVal.keys, List.lookup]

/-- C10: two environments that agree on `VUE_APP_API_URL` (same value, or unset
in both) give the same load result, whatever else they contain. -/
theorem depends_only_on_VUE_APP_API_URL (env1 env2 : Env)
    (h : getenv env1 "VUE_APP_API_URL" = getenv env2 "VUE_APP_API_URL") :
    moduleExports env1 = moduleExports env2
      ∧ ∃ cfg, moduleExports env1 = Except.ok cfg := by
  have hread : envRead env1 "VUE_APP_API_URL" = envRead env2 "VUE_APP_API_URL" := by
    simp only [envRead, h]
  rw [moduleExports_eq, moduleExports_eq, hread]
  exact ⟨rfl, _, rfl⟩

theorem depends_only_on_VUE_APP_API_URL_witness :
    getenv [("API_URL_OVERRIDE", "http://10.0.0.1:9000")] "VUE_APP_API_URL"
        = getenv [] "VUE_APP_API_URL"
      ∧ moduleExports [("API_URL_OVERRIDE", "http://10.0.0.1:9000")] = moduleExports []
      ∧ ∃ cfg, moduleExports [("API_URL_OVERRIDE", "http://10.0.0.1:9000")]
          = Except.ok cfg :=
  ⟨by decide,
    depends_only_on_VUE_APP_API_URL [("API_URL_OVERRIDE", "http://10.0.0.1:9000")] []
      (by decide)⟩

end VueConfig
